import Mathlib

/-!
Verification of the column-summarizer pipeline of `csv-processor.py`.

The program reads a CSV table, extracts three columns positionally
(hostname = index 2, operating system = index 4, vulnerability = index 7),
cleans each column (strip whitespace, classify null-like tokens, apply a
per-column null policy), counts occurrences of each resulting label, sorts
the (label, count) rows ascending by label, and writes each table with a
fixed header.  The definitions below are a shallow embedding of that code;
theorems check the specification's claims against it.
-/

namespace CsvProcessor

/-- The ASCII fragment of Python's whitespace set: the characters stripped by
`str.strip()` and matched by the regex class `\s` (space, tab, newline,
carriage return, vertical tab, form feed).  All inputs in the specification
are ASCII, so this fragment is the relevant one. -/
def pyWhitespace (c : Char) : Bool :=
  c = ' ' || c = '\t' || c = '\n' || c = '\r' || c = '\x0B' || c = '\x0C'

/-- Embeds `.str.strip()` (lines 106, 146, 188 of `csv-processor.py`):
remove leading and trailing whitespace. -/
def pyStrip (s : String) : String :=
  String.mk (((s.toList.dropWhile pyWhitespace).reverse.dropWhile pyWhitespace).reverse)

/-- Step 1 of the summarizer: coerce to text and trim.  On a string cell,
`astype(str)` is the identity, so normalization is exactly the strip. -/
def normalize (s : String) : String := pyStrip s

/-- The literal replacement list `['', 'nan', 'NaN', 'null', 'NULL']` of
lines 109, 149, 191. -/
def nullTokens : List String := ["", "nan", "NaN", "null", "NULL"]

/-- Embeds the regex `^\s*$` of lines 110, 150, 192: the value consists only
of whitespace characters (the empty string matches). -/
def wsOnly (s : String) : Bool := s.toList.all pyWhitespace

/-- A value is treated as null-like when either replacement of the code
fires: exact membership in `nullTokens`, or a full match of `^\s*$`. -/
def isNullLike (s : String) : Bool := nullTokens.contains s || wsOnly s

/-- The two null-handling policies of the three summarizer functions:
`process_os_summary` replaces null-like values with `"Unknown"`
(lines 109-110) while `process_hostname_summary` and
`process_vulnerability_summary` replace them with `pd.NA` and then
`dropna()` (lines 149-153, 191-195). -/
inductive Policy
  | replaceWithUnknown
  | drop
deriving DecidableEq

/-- Step 3 of the summarizer: apply the null policy to the cleaned values. -/
def applyPolicy : Policy → List String → List String
  | .replaceWithUnknown, xs => xs.map fun s => if isNullLike s then "Unknown" else s
  | .drop, xs => xs.filter fun s => !(isNullLike s)

/-- Ordinal (code-point) comparison of character lists: the comparison
Python uses for `str` values, hence the one `sort_values` applies to the
label column. -/
def strLeChars : List Char → List Char → Bool
  | [], _ => true
  | _ :: _, [] => false
  | a :: as, b :: bs =>
    if a.toNat < b.toNat then true
    else if b.toNat < a.toNat then false
    else strLeChars as bs

/-- Ordinal string comparison, `a ≤ b` on code points. -/
def strLe (a b : String) : Bool := strLeChars a.toList b.toList

/-- `strLe` as a relation, for use with `List.insertionSort`. -/
def rowLe (a b : String) : Prop := strLe a b = true

instance : DecidableRel rowLe := fun a b => Bool.decEq (strLe a b) true

theorem strLeChars_total (as : List Char) :
    ∀ bs, strLeChars as bs = true ∨ strLeChars bs as = true := by
  induction as with
  | nil => intro bs; left; rfl
  | cons a as ih =>
    intro bs
    cases bs with
    | nil => right; rfl
    | cons b bs =>
      rcases Nat.lt_trichotomy a.toNat b.toNat with h | h | h
      · left; simp [strLeChars, h]
      · rcases ih bs with hh | hh
        · left; simp [strLeChars, h, hh]
        · right; simp [strLeChars, h.symm, hh]
      · right; simp [strLeChars, h]

theorem strLeChars_trans (as : List Char) :
    ∀ bs cs, strLeChars as bs = true → strLeChars bs cs = true →
      strLeChars as cs = true := by
  induction as with
  | nil => intro bs cs _ _; rfl
  | cons a as ih =>
    intro bs cs h1 h2
    cases bs with
    | nil => simp [strLeChars] at h1
    | cons b bs =>
      cases cs with
      | nil => simp [strLeChars] at h2
      | cons c cs =>
        rcases Nat.lt_trichotomy a.toNat b.toNat with hab | hab | hab
        · rcases Nat.lt_trichotomy b.toNat c.toNat with hbc | hbc | hbc
          · simp [strLeChars, Nat.lt_trans hab hbc]
          · simp [strLeChars, hbc ▸ hab]
          · simp [strLeChars, Nat.lt_asymm hbc, hbc] at h2
        · rcases Nat.lt_trichotomy b.toNat c.toNat with hbc | hbc | hbc
          · simp [strLeChars, hab ▸ hbc]
          · have h1' : strLeChars as bs = true := by
              simpa [strLeChars, hab] using h1
            have h2' : strLeChars bs cs = true := by
              simpa [strLeChars, hbc] using h2
            have hac : a.toNat = c.toNat := hab.trans hbc
            simp [strLeChars, hac, ih bs cs h1' h2']
          · simp [strLeChars, Nat.lt_asymm hbc, hbc] at h2
        · simp [strLeChars, Nat.lt_asymm hab, hab] at h1

instance : IsTotal String rowLe := ⟨fun a b => strLeChars_total a.toList b.toList⟩

instance : IsTrans String rowLe :=
  ⟨fun a b c h1 h2 => strLeChars_trans a.toList b.toList c.toList h1 h2⟩

/-- Step 5 of the summarizer: sort labels ascending under ordinal
comparison (`sort_values` at lines 117, 160, 202). -/
def sortLabels (xs : List String) : List String := List.insertionSort rowLe xs

/-- Step 4 and 5 together: `value_counts` (count occurrences of each
distinct label, lines 113, 156, 198) followed by the ascending sort by
label.  The intermediate count-descending order of `value_counts` is
irrelevant because the final `sort_values` orders by the unique labels. -/
def aggregate (xs : List String) : List (String × Nat) :=
  (sortLabels xs.dedup).map fun l => (l, xs.count l)

/-- The whole column summarizer: normalize each value, apply the policy,
count and sort. -/
def summarize (p : Policy) (col : List String) : List (String × Nat) :=
  aggregate (applyPolicy p (col.map normalize))

/-- A summary table: the fixed two-column header plus the sorted
(label, count) rows, as written by `to_csv` with `index=False`. -/
structure SummaryTable where
  header : String × String
  rows : List (String × Nat)
deriving DecidableEq

def osHeader : String × String := ("Operating System", "Count")

def hostnameHeader : String × String := ("Hostname", "Count")

def vulnHeader : String × String := ("Vulnerability", "Count")

/-- Build a summary table from a header, a policy and a raw column. -/
def mkSummary (h : String × String) (p : Policy) (col : List String) : SummaryTable :=
  ⟨h, summarize p col⟩

/-- The summary computed by `process_os_summary` (lines 106-117); the
column headers of line 114. -/
def process_os_summary (col : List String) : SummaryTable :=
  mkSummary osHeader .replaceWithUnknown col

/-- The summary computed by `process_hostname_summary` (lines 146-160). -/
def process_hostname_summary (col : List String) : SummaryTable :=
  mkSummary hostnameHeader .drop col

/-- The summary computed by `process_vulnerability_summary` (lines 188-202). -/
def process_vulnerability_summary (col : List String) : SummaryTable :=
  mkSummary vulnHeader .drop col

/-- The loaded table: a column count and the data rows (string cells). -/
structure Table where
  ncols : Nat
  rows : List (List String)

/-- Column extraction of lines 61-63: `df.iloc[:, i]` when the table has
more than `i` columns, otherwise an empty series.  A cell absent from a
ragged row is modelled as `""`, which is classified null-like exactly as
pandas' `NaN`-padding (rendered `"nan"` by `astype(str)`) is. -/
def column (t : Table) (i : Nat) : List String :=
  if i < t.ncols then t.rows.map (fun r => r.getD i "") else []

/-- The column-count check of line 55: fewer than 8 columns prints a
warning and processing continues. -/
def columnCountWarning (t : Table) : Bool := decide (t.ncols < 8)

/-- The three summaries produced from a loaded table (lines 61-75):
hostname from index 2, operating system from index 4, vulnerability from
index 7. -/
def runSummaries (t : Table) : SummaryTable × SummaryTable × SummaryTable :=
  (process_os_summary (column t 4),
   process_hostname_summary (column t 2),
   process_vulnerability_summary (column t 7))

def osFilename (ts : String) : String := "os_summary_" ++ ts ++ ".csv"

def hostnameFilename (ts : String) : String := "hostname_summary_" ++ ts ++ ".csv"

def vulnFilename (ts : String) : String := "vuln_" ++ ts ++ ".csv"

/-- The outcome of one run: the boolean returned by `process_csv_file`,
whether the output directory was created, and the report paths printed in
the success summary (lines 77-84 print only the non-`None` paths). -/
structure RunReport where
  success : Bool
  dirCreated : Bool
  reportedPaths : List String
deriving DecidableEq

/-- Write-oracle for the three `to_csv` calls: whether each report's write
succeeds.  Each `process_*_summary` wraps its write in `try/except` and
returns `None` on failure (lines 122-129, 165-172, 207-214). -/
structure WriteEnv where
  okOS : Bool
  okHostname : Bool
  okVuln : Bool

/-- Control flow of `process_csv_file` (lines 33-89): a missing input file
returns `False` before the output directory is created (line 33 precedes
the `mkdir` of line 44); a load failure is caught by the `except` of line
87 and returns `False` (after `mkdir`); otherwise the three summaries are
processed, each failed write merely dropping that report's path from the
success summary, and `True` is returned. -/
def process_csv_file (inputExists : Bool) (loaded : Option Table)
    (env : WriteEnv) (ts : String) : RunReport :=
  if !inputExists then ⟨false, false, []⟩
  else
    match loaded with
    | none => ⟨false, true, []⟩
    | some _ =>
      ⟨true, true,
        (if env.okOS then [osFilename ts] else []) ++
        (if env.okHostname then [hostnameFilename ts] else []) ++
        (if env.okVuln then [vulnFilename ts] else [])⟩

/-- Exit behaviour of `main` (lines 239-245): `sys.exit(1)` when
`process_csv_file` returned `False`, implicit exit code 0 otherwise. -/
def mainExitCode (success : Bool) : Nat := if success then 0 else 1

/-- Embeds the composition `pd.read_csv` then `astype(str)` for the
restricted family of columns whose raw cell texts are canonical decimal
integers or empty: `read_csv` type-infers such a column (with at least one
empty cell) as float64, so `astype(str)` renders an integer cell `t` as
`t ++ ".0"` and an empty cell as `"nan"`. -/
def pandasFloatColumnCellText (raw : String) : String :=
  if raw = "" then "nan" else raw ++ ".0"

/-- Follows the spec's words for the Table Loader contract: the core
receives each cell's original text, unchanged. -/
def specLoaderCellText (raw : String) : String := raw

/-- Follows the spec's words defining the null-like token: equal to one of
`""`, `"nan"`, `"NaN"`, `"null"`, `"NULL"`, or consisting only of
whitespace; membership is case-sensitive. -/
def specNullLike (s : String) : Prop :=
  s = "" ∨ s = "nan" ∨ s = "NaN" ∨ s = "null" ∨ s = "NULL" ∨
    s.toList.all pyWhitespace = true

/-- The count recorded for label `l` in a summary table's rows (0 when the
label has no row). -/
def lookupCount (t : List (String × Nat)) (l : String) : Nat :=
  match t.find? (fun e => e.1 == l) with
  | some e => e.2
  | none => 0

theorem sortLabels_perm (xs : List String) : (sortLabels xs).Perm xs :=
  List.perm_insertionSort rowLe xs

theorem mem_sortLabels {a : String} {xs : List String} :
    a ∈ sortLabels xs ↔ a ∈ xs :=
  (sortLabels_perm xs).mem_iff

theorem summarize_nil (p : Policy) : summarize p [] = [] := by
  cases p <;> rfl

theorem aggregate_sum (xs : List String) :
    ((aggregate xs).map Prod.snd).sum = xs.length := by
  have h1 : (aggregate xs).map Prod.snd =
      (sortLabels xs.dedup).map fun l => xs.count l := by
    simp [aggregate, List.map_map, Function.comp]
  rw [h1, ((sortLabels_perm xs.dedup).map fun l => xs.count l).sum_eq]
  exact List.sum_map_count_dedup_eq_length xs

theorem aggregate_mem_pos (xs : List String) (e : String × Nat)
    (he : e ∈ aggregate xs) : 1 ≤ e.2 := by
  unfold aggregate at he
  rcases List.mem_map.mp he with ⟨l, hl, rfl⟩
  exact List.count_pos_iff.mpr (List.mem_dedup.mp (mem_sortLabels.mp hl))

theorem find?_label_map (g : String → Nat) (l : String) :
    ∀ labels : List String, l ∈ labels →
      List.find? (fun e => e.1 == l) (labels.map fun a => (a, g a)) = some (l, g l) := by
  intro labels
  induction labels with
  | nil => intro h; simp at h
  | cons a as ih =>
    intro h
    rcases List.mem_cons.mp h with rfl | hmem
    · simp
    · by_cases ha : a = l
      · subst ha; simp
      · simpa [List.find?_cons, ha] using ih hmem

theorem find?_label_map_none (g : String → Nat) (l : String)
    (labels : List String) (h : l ∉ labels) :
    List.find? (fun e => e.1 == l) (labels.map fun a => (a, g a)) = none := by
  induction labels with
  | nil => simp
  | cons a as ih =>
    simp only [List.mem_cons, not_or] at h
    have hne : a ≠ l := fun hh => h.1 hh.symm
    simpa [List.find?_cons, hne] using ih h.2

theorem lookupCount_aggregate (xs : List String) (l : String) :
    lookupCount (aggregate xs) l = xs.count l := by
  unfold lookupCount aggregate
  by_cases h : l ∈ sortLabels xs.dedup
  · rw [find?_label_map _ _ _ h]
  · rw [find?_label_map_none _ _ _ h]
    have hx : l ∉ xs := fun hx => h (mem_sortLabels.mpr (List.mem_dedup.mpr hx))
    simp [List.count_eq_zero.mpr hx]

theorem countP_or_split {α : Type} (p q : α → Bool) (l : List α) :
    l.countP (fun s => p s || q s) = l.countP p + l.countP (fun s => !(p s) && q s) := by
  induction l with
  | nil => simp
  | cons a l ih =>
    cases hp : p a <;> cases hq : q a <;>
      simp [List.countP_cons, hp, hq, ih] <;> omega

/-- C1: for every input column, the counts of the summary sum, under the
DROP policy, to the number of input values that are not null-like after
normalization and, under REPLACE_WITH_UNKNOWN, to the total number of
input values; each label's count is the exact multiset cardinality of
that label among the policy-adjusted values, and no case-folding happens
beyond trimming (`"Linux"` and `"linux"` stay distinct labels). -/
theorem C1_sum_of_counts (col : List String) :
    ((summarize .drop col).map Prod.snd).sum
        = ((col.map normalize).filter (fun s => !(isNullLike s))).length
    ∧ ((summarize .replaceWithUnknown col).map Prod.snd).sum = col.length
    ∧ (∀ (p : Policy) (l : String),
        lookupCount (summarize p col) l
          = (applyPolicy p (col.map normalize)).count l)
    ∧ summarize .drop ["Linux", "linux"] = [("Linux", 1), ("linux", 1)] := by
  refine ⟨?_, ?_, fun p l => lookupCount_aggregate _ _, by decide⟩
  · simpa [summarize, applyPolicy] using
      aggregate_sum ((col.map normalize).filter (fun s => !(isNullLike s)))
  · simpa [summarize, applyPolicy] using
      aggregate_sum ((col.map normalize).map fun s =>
        if isNullLike s then "Unknown" else s)

/-- C2: REPLACE_WITH_UNKNOWN maps each null-like normalized value to the
literal label `"Unknown"` before counting, DROP excludes each null-like
normalized value entirely before counting, and a non-null-like value
reaches counting unchanged (as its normalized self); in particular the
hostname input `["web01", "", "web01", "  "]` under DROP yields the single
row `("web01", 2)`. -/
theorem C2_null_policy (v w : String) (xs : List String)
    (hv : isNullLike (normalize v) = true)
    (hw : isNullLike (normalize w) = false) :
    summarize .drop (v :: xs) = summarize .drop xs
    ∧ summarize .replaceWithUnknown (v :: xs)
        = summarize .replaceWithUnknown ("Unknown" :: xs)
    ∧ summarize .drop (w :: xs)
        = aggregate (normalize w :: applyPolicy .drop (xs.map normalize))
    ∧ summarize .replaceWithUnknown (w :: xs)
        = aggregate (normalize w :: applyPolicy .replaceWithUnknown (xs.map normalize))
    ∧ summarize .drop ["web01", "", "web01", "  "] = [("web01", 2)] := by
  refine ⟨?_, ?_, ?_, ?_, by decide⟩
  · simp [summarize, applyPolicy, List.filter_cons, hv]
  · have h1 : normalize "Unknown" = "Unknown" := by decide
    have h2 : isNullLike "Unknown" = false := by decide
    simp [summarize, applyPolicy, hv, h1, h2]
  · simp [summarize, applyPolicy, List.filter_cons, hw]
  · simp [summarize, applyPolicy, hw]

/-- Witness for C2: instantiated at the null-like value `"   "`, the
non-null-like value `"web01"` and the empty tail. -/
theorem C2_null_policy_witness :
    isNullLike (normalize "   ") = true
    ∧ isNullLike (normalize "web01") = false
    ∧ (summarize .drop ["   "] = summarize .drop []
       ∧ summarize .replaceWithUnknown ["   "]
           = summarize .replaceWithUnknown ["Unknown"]
       ∧ summarize .drop ["web01"]
           = aggregate (normalize "web01" ::
               applyPolicy .drop (([] : List String).map normalize))
       ∧ summarize .replaceWithUnknown ["web01"]
           = aggregate (normalize "web01" ::
               applyPolicy .replaceWithUnknown (([] : List String).map normalize))
       ∧ summarize .drop ["web01", "", "web01", "  "] = [("web01", 2)]) :=
  ⟨by decide, by decide, C2_null_policy "   " "web01" [] (by decide) (by decide)⟩

/-- C3: a value is classified null-like exactly when it equals one of
`""`, `"nan"`, `"NaN"`, `"null"`, `"NULL"` or consists only of whitespace
(case-sensitive membership); in particular `""`, `"   "`, `"nan"`,
`"NaN"`, `"null"`, `"NULL"` are null-like and `"n/a"` is not. -/
theorem C3_null_like_classification :
    (∀ s, isNullLike s = true ↔ specNullLike s)
    ∧ isNullLike "" = true ∧ isNullLike "   " = true ∧ isNullLike "nan" = true
    ∧ isNullLike "NaN" = true ∧ isNullLike "null" = true
    ∧ isNullLike "NULL" = true ∧ isNullLike "n/a" = false := by
  refine ⟨?_, by decide, by decide, by decide, by decide, by decide, by decide,
    by decide⟩
  intro s
  simp [isNullLike, specNullLike, nullTokens, wsOnly]
  tauto

/-- C4: the rows of every produced summary are sorted ascending by label
under ordinal (code-point) string comparison — every adjacent pair of rows
`(a, b)` satisfies `a.label ≤ b.label` — and the OS input
`["Linux", " linux ", "", "Windows"]` under REPLACE_WITH_UNKNOWN yields
the rows `Linux, Unknown, Windows, linux`, each with count 1. -/
theorem C4_sorted_by_label (p : Policy) (col : List String) :
    List.Chain' (fun a b : String × Nat => strLe a.1 b.1 = true) (summarize p col)
    ∧ summarize .replaceWithUnknown ["Linux", " linux ", "", "Windows"]
        = [("Linux", 1), ("Unknown", 1), ("Windows", 1), ("linux", 1)] := by
  refine ⟨?_, by decide⟩
  have hs : List.Sorted rowLe
      (sortLabels (applyPolicy p (col.map normalize)).dedup) :=
    List.sorted_insertionSort rowLe _
  have hp : List.Pairwise (fun a b : String × Nat => strLe a.1 b.1 = true)
      (summarize p col) :=
    List.Pairwise.map (fun l => (l, (applyPolicy p (col.map normalize)).count l))
      (fun a b h => h) hs
  exact hp.chain'

/-- C6: an empty input sequence yields an empty summary (header only,
no rows); a column index beyond the table's width yields the empty column;
a table with fewer than 8 columns raises the warning flag but its
summaries still proceed, the vulnerability report (index 7) coming out
empty rather than crashing. -/
theorem C6_empty_input (p : Policy) (h : String × String) (t : Table) (i : Nat)
    (hle : t.ncols ≤ i) (h8 : t.ncols < 8) :
    (mkSummary h p []).rows = [] ∧ (mkSummary h p []).header = h
    ∧ column t i = [] ∧ columnCountWarning t = true
    ∧ (runSummaries t).2.2.rows = [] := by
  refine ⟨summarize_nil p, rfl, ?_, ?_, ?_⟩
  · simp [column, Nat.not_lt.mpr hle]
  · simp [columnCountWarning, h8]
  · have hc : column t 7 = [] := by
      simp [column, Nat.not_lt.mpr (by omega : t.ncols ≤ 7)]
    simp [runSummaries, process_vulnerability_summary, mkSummary, hc,
      summarize_nil]

/-- Witness for C6: a five-column table probed at column index 7. -/
theorem C6_empty_input_witness :
    (Table.mk 5 [["id1", "10.0.0.1", "web01", "x", "Linux"]]).ncols ≤ 7
    ∧ (Table.mk 5 [["id1", "10.0.0.1", "web01", "x", "Linux"]]).ncols < 8
    ∧ ((mkSummary vulnHeader .drop []).rows = []
       ∧ (mkSummary vulnHeader .drop []).header = vulnHeader
       ∧ column (Table.mk 5 [["id1", "10.0.0.1", "web01", "x", "Linux"]]) 7 = []
       ∧ columnCountWarning (Table.mk 5 [["id1", "10.0.0.1", "web01", "x", "Linux"]]) = true
       ∧ (runSummaries (Table.mk 5 [["id1", "10.0.0.1", "web01", "x", "Linux"]])).2.2.rows = []) :=
  ⟨by decide, by decide,
    C6_empty_input .drop vulnHeader
      (Table.mk 5 [["id1", "10.0.0.1", "web01", "x", "Linux"]]) 7
      (by decide) (by decide)⟩

/-- C7: in every produced summary, labels are unique and every count is at
least 1. -/
theorem C7_labels_unique_counts_pos (p : Policy) (col : List String) :
    ((summarize p col).map Prod.fst).Nodup
    ∧ ∀ e ∈ summarize p col, 1 ≤ e.2 := by
  constructor
  · have h1 : (summarize p col).map Prod.fst =
        sortLabels (applyPolicy p (col.map normalize)).dedup := by
      simp [summarize, aggregate, List.map_map, Function.comp_def]
    rw [h1]
    exact (sortLabels_perm _).symm.nodup (List.nodup_dedup _)
  · intro e he
    exact aggregate_mem_pos _ e he

theorem osFilename_ne_hostnameFilename (ts : String) :
    osFilename ts ≠ hostnameFilename ts := by
  intro h
  have hlen := congrArg String.length h
  rw [osFilename, hostnameFilename, String.length_append, String.length_append,
    String.length_append, String.length_append,
    show ("os_summary_" : String).length = 11 from rfl,
    show ("hostname_summary_" : String).length = 17 from rfl] at hlen
  omega

theorem osFilename_ne_vulnFilename (ts : String) :
    osFilename ts ≠ vulnFilename ts := by
  intro h
  have hlen := congrArg String.length h
  rw [osFilename, vulnFilename, String.length_append, String.length_append,
    String.length_append, String.length_append,
    show ("os_summary_" : String).length = 11 from rfl,
    show ("vuln_" : String).length = 5 from rfl] at hlen
  omega

theorem hostnameFilename_ne_vulnFilename (ts : String) :
    hostnameFilename ts ≠ vulnFilename ts := by
  intro h
  have hlen := congrArg String.length h
  rw [hostnameFilename, vulnFilename, String.length_append, String.length_append,
    String.length_append, String.length_append,
    show ("hostname_summary_" : String).length = 17 from rfl,
    show ("vuln_" : String).length = 5 from rfl] at hlen
  omega

/-- C8: when the input path does not exist, the run aborts before
producing anything — `process_csv_file` returns failure with no output
directory created and no report paths, and `main` exits with code 1. -/
theorem C8_missing_input (loaded : Option Table) (env : WriteEnv) (ts : String) :
    process_csv_file false loaded env ts = ⟨false, false, []⟩
    ∧ (process_csv_file false loaded env ts).reportedPaths = []
    ∧ (process_csv_file false loaded env ts).dirCreated = false
    ∧ mainExitCode (process_csv_file false loaded env ts).success = 1 :=
  ⟨rfl, rfl, rfl, rfl⟩

/-- C9: per-report write failures are local and non-fatal — with the input
present and the load successful, the run still reports success and exits
with code 0, a failed report's path is omitted from the success summary,
and each of the other reports' paths is listed exactly when its own write
succeeded. -/
theorem C9_write_failure_nonfatal (t : Table) (env : WriteEnv) (ts : String) :
    (process_csv_file true (some t) env ts).success = true
    ∧ mainExitCode (process_csv_file true (some t) env ts).success = 0
    ∧ (osFilename ts ∈ (process_csv_file true (some t) env ts).reportedPaths
        ↔ env.okOS = true)
    ∧ (hostnameFilename ts ∈ (process_csv_file true (some t) env ts).reportedPaths
        ↔ env.okHostname = true)
    ∧ (vulnFilename ts ∈ (process_csv_file true (some t) env ts).reportedPaths
        ↔ env.okVuln = true) := by
  obtain ⟨o, hn, vu⟩ := env
  refine ⟨rfl, rfl, ?_, ?_, ?_⟩ <;>
    cases o <;> cases hn <;> cases vu <;>
      simp [process_csv_file,
        osFilename_ne_hostnameFilename ts, osFilename_ne_vulnFilename ts,
        hostnameFilename_ne_vulnFilename ts,
        Ne.symm (osFilename_ne_hostnameFilename ts),
        Ne.symm (osFilename_ne_vulnFilename ts),
        Ne.symm (hostnameFilename_ne_vulnFilename ts)]

/-- C10: under REPLACE_WITH_UNKNOWN the count of the `"Unknown"` row is
the number of null-like normalized inputs plus the number of genuine
(non-null-like) normalized inputs equal to `"Unknown"` — the sentinel and
a real `"Unknown"` input merge into one indistinguishable entry, as the
input `["Unknown", "", "nan"]` producing the single row `("Unknown", 3)`
shows. -/
theorem C10_unknown_merge (col : List String) :
    lookupCount (summarize .replaceWithUnknown col) "Unknown"
      = ((col.map normalize).filter (fun s => isNullLike s)).length
        + ((col.map normalize).filter (fun s => !(isNullLike s) && s == "Unknown")).length
    ∧ summarize .replaceWithUnknown ["Unknown", "", "nan"] = [("Unknown", 3)] := by
  refine ⟨?_, by decide⟩
  have h0 : lookupCount (summarize .replaceWithUnknown col) "Unknown"
      = (applyPolicy .replaceWithUnknown (col.map normalize)).count "Unknown" :=
    lookupCount_aggregate _ _
  have hfun : ((fun x : String => x == "Unknown") ∘ fun s =>
        if isNullLike s then "Unknown" else s)
      = fun s => isNullLike s || s == "Unknown" := by
    funext s
    cases h : isNullLike s <;> simp [Function.comp, h]
  rw [h0, show applyPolicy .replaceWithUnknown (col.map normalize)
        = (col.map normalize).map (fun s => if isNullLike s then "Unknown" else s)
      from rfl,
    List.count_eq_countP, List.countP_map, hfun, countP_or_split,
    List.countP_eq_length_filter, List.countP_eq_length_filter]

/-- C5: the code's loader does not hand the summarizer the cell's original
text — `pd.read_csv` type-infers a column of integer-or-empty cells as
float64, so the summarizer receives `"1.0"` and `"nan"` for the raw texts
`"1"` and `""` and emits the label `"1.0"`, whereas the loader contract of
the spec (original text, modelled by `specLoaderCellText`) would make it
emit the label `"1"`. -/
theorem C5_loader_type_inference_corrupts :
    pandasFloatColumnCellText "1" ≠ specLoaderCellText "1"
    ∧ summarize .replaceWithUnknown (["1", ""].map pandasFloatColumnCellText)
        = [("1.0", 1), ("Unknown", 1)]
    ∧ summarize .replaceWithUnknown (["1", ""].map specLoaderCellText)
        = [("1", 1), ("Unknown", 1)] :=
  ⟨by decide, by decide, by decide⟩

end CsvProcessor
